import Mathlib

set_option linter.unusedVariables false

/-!
Shallow embedding of the decision core of the Car_class repository
(`src/car_state/expert_analyzer.py` and `src/car_state/analyze_car_image.py`).

Numeric quantities (model confidence, class probabilities, image metrics,
dirt score) are embedded as rationals (`ℚ`); the Python floats in the source
only ever meet the literal thresholds written in the code, so the ordered
field structure of `ℚ` models every comparison the code performs.
The image-processing layer (PIL/numpy metric extraction) is outside the
decision core: the six metrics are taken as the abstraction boundary,
exactly as the six locals computed in `analyze_dirt_level` before the
scoring block.
-/

/-- Repairability statuses returned by `determine_repairability`
(`expert_analyzer.py`, lines 160-235). -/
inductive RepairStatus
  | taxi_ready
  | conditional_taxi
  | repair_required
  | taxi_banned
deriving DecidableEq, Repr

/-- Economic assessment tags returned as the third component of
`determine_repairability`'s result. -/
inductive EconomicTag
  | premium_ready
  | minor_maintenance
  | image_improvement
  | cosmetic_repair
  | restricted_operation
  | mandatory_repair
  | safety_violation
deriving DecidableEq, Repr

/-- One line of the message tuple returned by `determine_repairability`.
The Russian literal text of each line is abstracted positionally:
`lit b i` is the `i`-th fixed literal line of branch `b`
(branches numbered 0 = taxi ban, 1 = mandatory repair, 2 = restricted
operation, 3 = cosmetic repair, 4 = image improvement,
5 = minor maintenance, 6 = premium ready).  Lines whose source text is an
f-string keep the interpolated numeric value:
`probLine p` interpolates `major_damage_prob`, `sevLine s` interpolates
`minor_damage_prob = 100 - major_damage_prob`, `threshLine b t`
interpolates one threshold constant and `threshPair a b` interpolates two
(the line quoting the 25-50 window). -/
inductive RLine
  | lit (branch idx : Nat)
  | probLine (p : ℚ)
  | sevLine (s : ℚ)
  | threshLine (branch : Nat) (t : ℚ)
  | threshPair (a b : ℚ)
deriving DecidableEq, Repr

/-- `TAXI_BAN_THRESHOLD` from `expert_analyzer.py` line 155. -/
def TAXI_BAN_THRESHOLD : ℚ := 75

/-- `REPAIR_REQUIRED_THRESHOLD` from `expert_analyzer.py` line 156. -/
def REPAIR_REQUIRED_THRESHOLD : ℚ := 50

/-- `CONDITIONAL_THRESHOLD` from `expert_analyzer.py` line 157. -/
def CONDITIONAL_THRESHOLD : ℚ := 25

/-- `MINOR_DAMAGE_TAXI_LIMIT` from `expert_analyzer.py` line 158. -/
def MINOR_DAMAGE_TAXI_LIMIT : ℚ := 40

/-- Embedding of `determine_repairability(predicted_class, confidence,
major_damage_prob)` (`expert_analyzer.py`, lines 143-235).  The source
returns a triple `(repairability_status, message_tuple, economic_assessment)`;
the Python function is total (its trailing `else` catches every class string
other than `major_damage` and `minor_damage`) and performs no input
validation, so the embedding is a plain function. -/
def determine_repairability (predicted_class : String)
    (confidence major_damage_prob : ℚ) :
    RepairStatus × List RLine × EconomicTag :=
  if predicted_class = "major_damage" then
    if confidence > 8/10 ∧ major_damage_prob > TAXI_BAN_THRESHOLD then
      (.taxi_banned,
        [.lit 0 0, .probLine major_damage_prob, .threshLine 0 TAXI_BAN_THRESHOLD,
         .lit 0 1, .lit 0 2, .lit 0 3, .lit 0 4],
        .safety_violation)
    else if confidence > 6/10 ∨ major_damage_prob > REPAIR_REQUIRED_THRESHOLD then
      (.repair_required,
        [.lit 1 0, .probLine major_damage_prob,
         .threshLine 1 REPAIR_REQUIRED_THRESHOLD,
         .lit 1 1, .lit 1 2, .lit 1 3, .lit 1 4, .lit 1 5],
        .mandatory_repair)
    else if major_damage_prob > CONDITIONAL_THRESHOLD then
      (.conditional_taxi,
        [.lit 2 0, .probLine major_damage_prob,
         .threshPair CONDITIONAL_THRESHOLD REPAIR_REQUIRED_THRESHOLD,
         .lit 2 1, .lit 2 2, .lit 2 3, .lit 2 4, .lit 2 5],
        .restricted_operation)
    else
      (.conditional_taxi,
        [.lit 3 0, .probLine major_damage_prob,
         .lit 3 1, .lit 3 2, .lit 3 3, .lit 3 4],
        .cosmetic_repair)
  else if predicted_class = "minor_damage" then
    let minor_damage_prob := 100 - major_damage_prob
    if confidence > 6/10 ∧ minor_damage_prob > MINOR_DAMAGE_TAXI_LIMIT then
      (.conditional_taxi,
        [.lit 4 0, .sevLine minor_damage_prob,
         .lit 4 1, .lit 4 2, .lit 4 3, .lit 4 4, .lit 4 5],
        .image_improvement)
    else
      (.taxi_ready,
        [.lit 5 0, .lit 5 1, .lit 5 2, .lit 5 3, .lit 5 4, .lit 5 5],
        .minor_maintenance)
  else
    (.taxi_ready,
      [.lit 6 0, .lit 6 1, .lit 6 2, .lit 6 3, .lit 6 4, .lit 6 5],
      .premium_ready)

example :
    (determine_repairability "major_damage" (85/100) 80).1 =
      RepairStatus.taxi_banned := by
  simp only [determine_repairability, TAXI_BAN_THRESHOLD]
  norm_num

example :
    (determine_repairability "minor_damage" (7/10) 55).2.2 =
      EconomicTag.image_improvement := by
  simp only [determine_repairability, MINOR_DAMAGE_TAXI_LIMIT]
  norm_num
  simp

example :
    (determine_repairability "no_damage" (95/100) 2).1 =
      RepairStatus.taxi_ready := by
  simp [determine_repairability]

/-- The six image statistics computed by `analyze_dirt_level`
(`expert_analyzer.py` lines 48-79, identically `analyze_car_image.py`
lines 57-91) before the scoring block.  The pixel-level extraction
(numpy/PIL) is the abstraction boundary; the scoring block consumes only
these six numbers.  `brown_frac` embeds the source local `brown_ratio`. -/
structure ImageMetrics where
  color_diversity : ℚ
  contrast : ℚ
  saturation : ℚ
  brown_frac : ℚ
  edge_intensity : ℚ
  brightness : ℚ
deriving DecidableEq, Repr

/-- The `dirt_score` accumulation of `analyze_dirt_level`
(`expert_analyzer.py` lines 82-112): starts at 0 and runs six independent
if/elif blocks, each adding its weight.  Written as the same sequential
accumulation as the source. -/
def dirt_score (m : ImageMetrics) : ℚ :=
  let s : ℚ := 0
  let s := if m.color_diversity < 80 then s + 2
           else if m.color_diversity < 120 then s + 1 else s
  let s := if m.contrast < 25 then s + 2
           else if m.contrast < 40 then s + 1 else s
  let s := if m.saturation < 60 then s + 3/2
           else if m.saturation < 100 then s + 1/2 else s
  let s := if m.brown_frac > 15/100 then s + 2
           else if m.brown_frac > 8/100 then s + 1 else s
  let s := if m.edge_intensity < 15 then s + 3/2
           else if m.edge_intensity < 25 then s + 1/2 else s
  let s := if m.brightness < 90 then s + 1
           else if m.brightness < 110 then s + 1/2 else s
  s

/-- The five cleanliness labels.  The source uses Russian strings
(`"очень грязная"`, `"грязная"`, `"слегка грязная"`,
`"достаточно чистая"`, `"очень чистая"`, set in `expert_analyzer.py`
lines 115-129); `labelString` below gives that correspondence. -/
inductive DirtLabel
  | very_dirty
  | dirty
  | slightly_dirty
  | fairly_clean
  | very_clean
deriving DecidableEq, Repr

/-- The label bucketing of `analyze_dirt_level` (`expert_analyzer.py`
lines 115-129, identically `analyze_car_image.py` lines 133-142):
descending closed lower bounds, first match wins. -/
def dirt_label (score : ℚ) : DirtLabel :=
  if score ≥ 6 then .very_dirty
  else if score ≥ 4 then .dirty
  else if score ≥ 2 then .slightly_dirty
  else if score ≥ 1 then .fairly_clean
  else .very_clean

/-- The Russian status string the source associates with each label. -/
def labelString : DirtLabel → String
  | .very_dirty => "очень грязная"
  | .dirty => "грязная"
  | .slightly_dirty => "слегка грязная"
  | .fairly_clean => "достаточно чистая"
  | .very_clean => "очень чистая"

/-- The scoring core of `analyze_dirt_level`: from the six metrics to the
returned `(status, dirt_score)` pair (the emoji and the metrics dict of the
source carry no further information about the decision). -/
def analyze_dirt_level (m : ImageMetrics) : DirtLabel × ℚ :=
  (dirt_label (dirt_score m), dirt_score m)

/-- Contribution of the color-diversity clause (`expert_analyzer.py`
lines 84-87), read off the spec's additive description for comparison with
the sequential accumulation of the source. -/
def colorContribution (c : ℚ) : ℚ :=
  if c < 80 then 2 else if c < 120 then 1 else 0

/-- Contribution of the contrast clause (lines 89-92). -/
def contrastContribution (c : ℚ) : ℚ :=
  if c < 25 then 2 else if c < 40 then 1 else 0

/-- Contribution of the saturation clause (lines 94-97). -/
def saturationContribution (c : ℚ) : ℚ :=
  if c < 60 then 3/2 else if c < 100 then 1/2 else 0

/-- Contribution of the brown-pixel clause (lines 99-102). -/
def brownContribution (c : ℚ) : ℚ :=
  if c > 15/100 then 2 else if c > 8/100 then 1 else 0

/-- Contribution of the edge-intensity clause (lines 104-107). -/
def edgeContribution (c : ℚ) : ℚ :=
  if c < 15 then 3/2 else if c < 25 then 1/2 else 0

/-- Contribution of the brightness clause (lines 109-112). -/
def brightnessContribution (c : ℚ) : ℚ :=
  if c < 90 then 1 else if c < 110 then 1/2 else 0

lemma ite_add_shift (s a b : ℚ) (P Q : Prop) [Decidable P] [Decidable Q] :
    (if P then s + a else if Q then s + b else s) =
      s + (if P then a else if Q then b else 0) := by
  split_ifs <;> ring

/-- The sequential accumulation equals the sum of the six clause
contributions. -/
lemma dirt_score_eq_sum (m : ImageMetrics) :
    dirt_score m =
      colorContribution m.color_diversity + contrastContribution m.contrast +
      saturationContribution m.saturation + brownContribution m.brown_frac +
      edgeContribution m.edge_intensity + brightnessContribution m.brightness := by
  unfold dirt_score colorContribution contrastContribution
    saturationContribution brownContribution edgeContribution
    brightnessContribution
  simp only [ite_add_shift]
  ring

example : dirt_score ⟨70, 20, 50, 2/10, 10, 80⟩ = 10 := by
  norm_num [dirt_score]

example : dirt_label 4 = DirtLabel.dirty := by norm_num [dirt_label]

/-- `chunkLead p l` holds when the character list `p` is an initial
segment of `l`. -/
def chunkLead : List Char → List Char → Bool
  | [], _ => true
  | _ :: _, [] => false
  | a :: as, b :: bs => a == b && chunkLead as bs

/-- `chunkInside p l` holds when `p` occurs contiguously somewhere in `l`. -/
def chunkInside (p : List Char) : List Char → Bool
  | [] => chunkLead p []
  | b :: bs => chunkLead p (b :: bs) || chunkInside p bs

/-- Embedding of the Python membership test `needle in hay` on strings
(contiguous substring containment), as used by `get_human_comment`
(`analyze_car_image.py` lines 182-188). -/
def pySubstr (needle hay : String) : Bool :=
  chunkInside needle.data hay.data

example : pySubstr "грязная" "слегка грязная" = true := by decide
example : pySubstr "очень грязная" "слегка грязная" = false := by decide
example : pySubstr "грязная" "достаточно чистая" = false := by decide

/-- The five cleanliness comment templates of `get_human_comment`
(`analyze_car_image.py` lines 181-193): terrible condition needing urgent
professional wash; needs a good wash; light dust; good cleanliness;
perfectly clean. -/
inductive CommentBlock
  | terrible_block
  | needs_wash_block
  | light_dust_block
  | good_clean_block
  | perfect_clean_block
deriving DecidableEq, Repr

/-- The cleanliness-comment selection of `get_human_comment`
(`analyze_car_image.py` lines 182-193): an if/elif chain testing Python
substring containment (`in`) of each label string in `dirt_status`, in
this order. -/
def dirtComment (dirt_status : String) : CommentBlock :=
  if pySubstr "очень грязная" dirt_status then .terrible_block
  else if pySubstr "грязная" dirt_status then .needs_wash_block
  else if pySubstr "слегка грязная" dirt_status then .light_dust_block
  else if pySubstr "достаточно чистая" dirt_status then .good_clean_block
  else .perfect_clean_block

/-- The five cleanliness narrative templates of
`generate_expert_assessment` (`expert_analyzer.py` lines 329-363):
critical contamination, significant contamination, moderate contamination,
good cleanliness, ideal cleanliness. -/
inductive DirtNarrative
  | critical_block
  | significant_block
  | moderate_block
  | good_block
  | ideal_block
deriving DecidableEq, Repr

/-- The cleanliness-narrative selection of `generate_expert_assessment`
(`expert_analyzer.py` lines 329-363): if/elif chain testing the status
string for equality, final `else` covering the very-clean string. -/
def dirtNarrative (dirt_status : String) : DirtNarrative :=
  if dirt_status = "очень грязная" then .critical_block
  else if dirt_status = "грязная" then .significant_block
  else if dirt_status = "слегка грязная" then .moderate_block
  else if dirt_status = "достаточно чистая" then .good_block
  else .ideal_block

/-- The decision-relevant outcome of `generate_expert_assessment`
(`expert_analyzer.py` lines 237-463).  The function builds a long list of
text lines; the embedded structure records every decision it makes:
the `determine_repairability` triple it obtains on lines 259-261, the
cleanliness narrative it selects on lines 329-363, and whether lines
439-451 append the critical-cleanliness block (`dirt_score > 6.0`) or the
below-standard-cleanliness block (`elif dirt_score > 4.0`).  The purely
textual sections (headers, the confidence-graded damage narrative on lines
263-314, the verdict narrative on lines 381-436, the metrics echo on lines
369-373 and the legal footer) add no further branching on the inputs
beyond what these fields record about status, tag and dirt. -/
structure ExpertAssessment where
  repairability_status : RepairStatus
  repairability_msgs : List RLine
  economic_status : EconomicTag
  dirt_narrative : DirtNarrative
  critical_clean_block : Bool
  below_standard_clean_block : Bool
deriving DecidableEq, Repr

/-- Embedding of `generate_expert_assessment(predicted_class, confidence,
probabilities, class_names, dirt_status, dirt_score, dirt_metrics)`
restricted to its decision content (see `ExpertAssessment`).
`probabilities` is the ordered triple `(no_damage, minor_damage,
major_damage)`; line 256 of the source computes
`major_damage_prob = probabilities[2] * 100`.  `class_names` and
`dirt_metrics` are only echoed as text, so they are not parameters of the
embedding. -/
def generate_expert_assessment (predicted_class : String) (confidence : ℚ)
    (probabilities : ℚ × ℚ × ℚ) (dirt_status : String) (ds : ℚ) :
    ExpertAssessment :=
  let major_damage_prob := probabilities.2.2 * 100
  let r := determine_repairability predicted_class confidence major_damage_prob
  let blocks : Bool × Bool :=
    if ds > 6 then (true, false)
    else if ds > 4 then (false, true)
    else (false, false)
  { repairability_status := r.1
    repairability_msgs := r.2.1
    economic_status := r.2.2
    dirt_narrative := dirtNarrative dirt_status
    critical_clean_block := blocks.1
    below_standard_clean_block := blocks.2 }

/-- The major-damage cascade exactly as the spec words it (claim C1),
restated independently of the source for the refinement comparison:
first match wins among `confidence > 0.8 AND P_major > 75` (ban),
`confidence > 0.6 OR P_major > 50` (mandatory repair),
`P_major > 25` (restricted), else cosmetic repair. -/
def cascadeSpec (confidence pMajor : ℚ) : RepairStatus × EconomicTag :=
  if confidence > 8/10 ∧ pMajor > 75 then
    (.taxi_banned, .safety_violation)
  else if confidence > 6/10 ∨ pMajor > 50 then
    (.repair_required, .mandatory_repair)
  else if pMajor > 25 then
    (.conditional_taxi, .restricted_operation)
  else
    (.conditional_taxi, .cosmetic_repair)

/-- C1: for every prediction with predicted class `major_damage`,
confidence in `(0,1]` and `P_major` in `[0,100]`, the
`(status, economic_tag)` pair returned by `determine_repairability` is
exactly the verdict of the ordered cascade described by the spec
(`cascadeSpec`), first match wins. -/
theorem major_cascade_agrees_with_spec (confidence pMajor : ℚ)
    (hc0 : 0 < confidence) (hc1 : confidence ≤ 1)
    (hp0 : 0 ≤ pMajor) (hp1 : pMajor ≤ 100) :
    ((determine_repairability "major_damage" confidence pMajor).1,
     (determine_repairability "major_damage" confidence pMajor).2.2) =
      cascadeSpec confidence pMajor := by
  unfold determine_repairability cascadeSpec
  rw [if_pos rfl]
  unfold TAXI_BAN_THRESHOLD REPAIR_REQUIRED_THRESHOLD CONDITIONAL_THRESHOLD
  split_ifs <;> rfl

/-- Witness for C1 at the spec's own boundary scenario
`(major_damage, confidence = 0.85, P_major = 80)`. -/
theorem major_cascade_agrees_with_spec_witness :
    ((0:ℚ) < 85/100 ∧ (85/100:ℚ) ≤ 1 ∧ (0:ℚ) ≤ 80 ∧ (80:ℚ) ≤ 100) ∧
    ((determine_repairability "major_damage" (85/100) 80).1,
     (determine_repairability "major_damage" (85/100) 80).2.2) =
      cascadeSpec (85/100) 80 :=
  ⟨⟨by norm_num, by norm_num, by norm_num, by norm_num⟩,
   major_cascade_agrees_with_spec (85/100) 80 (by norm_num) (by norm_num)
     (by norm_num) (by norm_num)⟩

/-- C2 counterexample: `determine_repairability` performs no input
validation.  At the contract-violating input `confidence = 3/2 > 1`
(class `major_damage`, `P_major = 80`) it does not fail: it returns the
verdict `taxi_banned / safety_violation`, so the function does not reject
invalid inputs before evaluating the cascade (no
`InvalidPredictionError` exists anywhere in the source). -/
theorem no_input_validation_counterexample :
    (1 : ℚ) < 3/2 ∧
    (determine_repairability "major_damage" (3/2) 80).1 =
      RepairStatus.taxi_banned ∧
    (determine_repairability "major_damage" (3/2) 80).2.2 =
      EconomicTag.safety_violation := by
  refine ⟨by norm_num, ?_, ?_⟩ <;>
    · simp only [determine_repairability, TAXI_BAN_THRESHOLD]
      norm_num

/-- C2 amended: the decision function is total and never raises.  For
every class string, every confidence and every `P_major` — including
contract-violating values — it returns one of the seven documented
`(status, economic_tag)` pairs; there is no validation and no error path. -/
theorem decision_function_total_no_error (predicted_class : String)
    (confidence pMajor : ℚ) :
    ((determine_repairability predicted_class confidence pMajor).1,
     (determine_repairability predicted_class confidence pMajor).2.2) ∈
      [(RepairStatus.taxi_banned, EconomicTag.safety_violation),
       (RepairStatus.repair_required, EconomicTag.mandatory_repair),
       (RepairStatus.conditional_taxi, EconomicTag.restricted_operation),
       (RepairStatus.conditional_taxi, EconomicTag.cosmetic_repair),
       (RepairStatus.conditional_taxi, EconomicTag.image_improvement),
       (RepairStatus.taxi_ready, EconomicTag.minor_maintenance),
       (RepairStatus.taxi_ready, EconomicTag.premium_ready)] := by
  simp only [determine_repairability]
  split_ifs <;> simp

/-- C3: for predicted class `minor_damage`, with
`minor_severity = 100 - P_major`, the verdict is
`conditional_taxi / image_improvement` exactly when
`confidence > 0.6 AND minor_severity > 40`, else
`taxi_ready / minor_maintenance`; and for predicted class `no_damage` the
verdict is `taxi_ready / premium_ready` for every confidence and
probability vector. -/
theorem minor_and_no_damage_branches (confidence pMajor : ℚ) :
    ((determine_repairability "minor_damage" confidence pMajor).1,
     (determine_repairability "minor_damage" confidence pMajor).2.2) =
      (if confidence > 6/10 ∧ 100 - pMajor > 40 then
        (RepairStatus.conditional_taxi, EconomicTag.image_improvement)
       else
        (RepairStatus.taxi_ready, EconomicTag.minor_maintenance)) ∧
    ((determine_repairability "no_damage" confidence pMajor).1,
     (determine_repairability "no_damage" confidence pMajor).2.2) =
      (RepairStatus.taxi_ready, EconomicTag.premium_ready) := by
  constructor
  · simp only [determine_repairability, MINOR_DAMAGE_TAXI_LIMIT]
    norm_num
    split_ifs <;> simp_all
  · simp [determine_repairability]

/-- C10: any predicted-class string other than `major_damage` and
`minor_damage` — including strings outside the three documented labels —
falls through to the final `else` branch and yields
`taxi_ready / premium_ready`, for every confidence and `P_major`. -/
theorem unknown_class_premium_ready (predicted_class : String)
    (confidence pMajor : ℚ)
    (h1 : predicted_class ≠ "major_damage")
    (h2 : predicted_class ≠ "minor_damage") :
    (determine_repairability predicted_class confidence pMajor).1 =
      RepairStatus.taxi_ready ∧
    (determine_repairability predicted_class confidence pMajor).2.2 =
      EconomicTag.premium_ready := by
  unfold determine_repairability
  rw [if_neg h1, if_neg h2]
  exact ⟨rfl, rfl⟩

/-- Witness for C10 at the undocumented class string `"truck"` with an
extreme `P_major` of 99. -/
theorem unknown_class_premium_ready_witness :
    (("truck" : String) ≠ "major_damage" ∧
      ("truck" : String) ≠ "minor_damage") ∧
    (determine_repairability "truck" (1/2) 99).1 = RepairStatus.taxi_ready ∧
    (determine_repairability "truck" (1/2) 99).2.2 =
      EconomicTag.premium_ready :=
  ⟨⟨by decide, by decide⟩,
   unknown_class_premium_ready "truck" (1/2) 99 (by decide) (by decide)⟩

/-- C4: the dirt label is a total function of the score, the five buckets
form the closed-lower-bound partition `[6,∞) / [4,6) / [2,4) / [1,2) /
(-∞,1)` (so they cover `[0,10]` with no gaps or overlaps), and each
boundary value 1, 2, 4, 6 maps to the higher bucket. -/
theorem dirt_label_closed_lower_bound_partition (s : ℚ) :
    (dirt_label s = DirtLabel.very_dirty ↔ 6 ≤ s) ∧
    (dirt_label s = DirtLabel.dirty ↔ 4 ≤ s ∧ s < 6) ∧
    (dirt_label s = DirtLabel.slightly_dirty ↔ 2 ≤ s ∧ s < 4) ∧
    (dirt_label s = DirtLabel.fairly_clean ↔ 1 ≤ s ∧ s < 2) ∧
    (dirt_label s = DirtLabel.very_clean ↔ s < 1) ∧
    dirt_label (6:ℚ) = DirtLabel.very_dirty ∧
    dirt_label (4:ℚ) = DirtLabel.dirty ∧
    dirt_label (2:ℚ) = DirtLabel.slightly_dirty ∧
    dirt_label (1:ℚ) = DirtLabel.fairly_clean := by
  refine ⟨?_, ?_, ?_, ?_, ?_, by norm_num [dirt_label], by norm_num [dirt_label],
    by norm_num [dirt_label], by norm_num [dirt_label]⟩ <;>
  · unfold dirt_label
    split_ifs <;> simp_all <;> (intros; linarith)

lemma colorContribution_bounds (c : ℚ) :
    0 ≤ colorContribution c ∧ colorContribution c ≤ 2 := by
  unfold colorContribution
  split_ifs <;> norm_num

lemma contrastContribution_bounds (c : ℚ) :
    0 ≤ contrastContribution c ∧ contrastContribution c ≤ 2 := by
  unfold contrastContribution
  split_ifs <;> norm_num

lemma saturationContribution_bounds (c : ℚ) :
    0 ≤ saturationContribution c ∧ saturationContribution c ≤ 3/2 := by
  unfold saturationContribution
  split_ifs <;> norm_num

lemma brownContribution_bounds (c : ℚ) :
    0 ≤ brownContribution c ∧ brownContribution c ≤ 2 := by
  unfold brownContribution
  split_ifs <;> norm_num

lemma edgeContribution_bounds (c : ℚ) :
    0 ≤ edgeContribution c ∧ edgeContribution c ≤ 3/2 := by
  unfold edgeContribution
  split_ifs <;> norm_num

lemma brightnessContribution_bounds (c : ℚ) :
    0 ≤ brightnessContribution c ∧ brightnessContribution c ≤ 1 := by
  unfold brightnessContribution
  split_ifs <;> norm_num

/-- C5: the dirt score is the sum of the six independent additive clause
contributions (color diversity 2/1/0, contrast 2/1/0, saturation
1.5/0.5/0, brown ratio 2/1/0, edge intensity 1.5/0.5/0, brightness
1/0.5/0), and it always lies in `[0, 10]`. -/
theorem dirt_score_is_sum_of_six_contributions (m : ImageMetrics) :
    dirt_score m =
      colorContribution m.color_diversity + contrastContribution m.contrast +
      saturationContribution m.saturation + brownContribution m.brown_frac +
      edgeContribution m.edge_intensity + brightnessContribution m.brightness ∧
    0 ≤ dirt_score m ∧ dirt_score m ≤ 10 := by
  have h := dirt_score_eq_sum m
  have h1 := colorContribution_bounds m.color_diversity
  have h2 := contrastContribution_bounds m.contrast
  have h3 := saturationContribution_bounds m.saturation
  have h4 := brownContribution_bounds m.brown_frac
  have h5 := edgeContribution_bounds m.edge_intensity
  have h6 := brightnessContribution_bounds m.brightness
  refine ⟨h, ?_, ?_⟩ <;> rw [h] <;>
    [linarith [h1.1, h2.1, h3.1, h4.1, h5.1, h6.1];
     linarith [h1.2, h2.2, h3.2, h4.2, h5.2, h6.2]]

lemma colorContribution_antitone {x y : ℚ} (h : x ≤ y) :
    colorContribution y ≤ colorContribution x := by
  unfold colorContribution
  split_ifs <;> linarith

lemma contrastContribution_antitone {x y : ℚ} (h : x ≤ y) :
    contrastContribution y ≤ contrastContribution x := by
  unfold contrastContribution
  split_ifs <;> linarith

lemma saturationContribution_antitone {x y : ℚ} (h : x ≤ y) :
    saturationContribution y ≤ saturationContribution x := by
  unfold saturationContribution
  split_ifs <;> linarith

lemma brownContribution_monotone {x y : ℚ} (h : x ≤ y) :
    brownContribution x ≤ brownContribution y := by
  unfold brownContribution
  split_ifs <;> linarith

lemma edgeContribution_antitone {x y : ℚ} (h : x ≤ y) :
    edgeContribution y ≤ edgeContribution x := by
  unfold edgeContribution
  split_ifs <;> linarith

lemma brightnessContribution_antitone {x y : ℚ} (h : x ≤ y) :
    brightnessContribution y ≤ brightnessContribution x := by
  unfold brightnessContribution
  split_ifs <;> linarith

/-- C9: holding the other five metrics fixed, the dirt score is
monotonically non-decreasing as each metric moves toward its dirty end:
lowering color diversity, contrast, saturation, edge intensity or
brightness never decreases the score, and raising the brown-pixel ratio
never decreases it. -/
theorem dirt_score_monotone_per_metric (m : ImageMetrics) (x y : ℚ)
    (h : x ≤ y) :
    dirt_score { m with color_diversity := y } ≤
      dirt_score { m with color_diversity := x } ∧
    dirt_score { m with contrast := y } ≤ dirt_score { m with contrast := x } ∧
    dirt_score { m with saturation := y } ≤
      dirt_score { m with saturation := x } ∧
    dirt_score { m with brown_frac := x } ≤
      dirt_score { m with brown_frac := y } ∧
    dirt_score { m with edge_intensity := y } ≤
      dirt_score { m with edge_intensity := x } ∧
    dirt_score { m with brightness := y } ≤
      dirt_score { m with brightness := x } := by
  refine ⟨?_, ?_, ?_, ?_, ?_, ?_⟩ <;> simp only [dirt_score_eq_sum]
  · have hm := colorContribution_antitone h
    linarith
  · have hm := contrastContribution_antitone h
    linarith
  · have hm := saturationContribution_antitone h
    linarith
  · have hm := brownContribution_monotone h
    linarith
  · have hm := edgeContribution_antitone h
    linarith
  · have hm := brightnessContribution_antitone h
    linarith

/-- Witness for C9: lowering contrast from 50 to 20 with the other metrics
fixed does not decrease the score (here it raises it from 0 to 2). -/
theorem dirt_score_monotone_per_metric_witness :
    (20 : ℚ) ≤ 50 ∧
    dirt_score ⟨130, 50, 120, 1/100, 30, 120⟩ ≤
      dirt_score ⟨130, 20, 120, 1/100, 30, 120⟩ :=
  ⟨by norm_num,
   (dirt_score_monotone_per_metric ⟨130, 0, 120, 1/100, 30, 120⟩ 20 50
     (by norm_num)).2.1⟩

/-- C6: the safety verdict is independent of the cleanliness input — for a
fixed prediction, `generate_expert_assessment` produces the same status and
economic tag for any two dirt statuses and scores; and the cleanliness
layer appends the critical-cleanliness advisory block exactly when the
dirt score exceeds 6, else the below-standard block exactly when it
exceeds 4, and neither block otherwise. -/
theorem verdict_independent_of_dirt (predicted_class : String)
    (confidence : ℚ) (probabilities : ℚ × ℚ × ℚ)
    (ds1 ds2 : String) (q1 q2 : ℚ) :
    ((generate_expert_assessment predicted_class confidence probabilities
        ds1 q1).repairability_status =
      (generate_expert_assessment predicted_class confidence probabilities
        ds2 q2).repairability_status) ∧
    ((generate_expert_assessment predicted_class confidence probabilities
        ds1 q1).economic_status =
      (generate_expert_assessment predicted_class confidence probabilities
        ds2 q2).economic_status) ∧
    ((generate_expert_assessment predicted_class confidence probabilities
        ds1 q1).critical_clean_block = true ↔ 6 < q1) ∧
    ((generate_expert_assessment predicted_class confidence probabilities
        ds1 q1).below_standard_clean_block = true ↔ q1 ≤ 6 ∧ 4 < q1) := by
  refine ⟨rfl, rfl, ?_, ?_⟩ <;>
  · simp only [generate_expert_assessment]
    split_ifs <;> simp_all

/-- `carriesValue q l` holds when the message line `l` is an f-string line
interpolating exactly the numeric value `q`. -/
def carriesValue (q : ℚ) : RLine → Bool
  | .probLine p => p == q
  | .sevLine p => p == q
  | _ => false

/-- `carriesAnyValue l` holds when the message line `l` interpolates the
triggering probability value (`major_damage_prob` or
`minor_damage_prob`) at all. -/
def carriesAnyValue : RLine → Bool
  | .probLine _ => true
  | .sevLine _ => true
  | _ => false

/-- C7 counterexample: at the valid prediction
`(no_damage, confidence = 0.95, P_major = 2)` the rationale returned by
`determine_repairability` contains no line carrying the numeric `P_major`
value (2) nor the minor-severity value (98): the premium-ready branch
emits only fixed literal lines, so the rationale does not carry the
triggering numeric value in every branch. -/
theorem rationale_numeric_value_counterexample :
    ((determine_repairability "no_damage" (95/100) 2).2.1.any
      (fun l => carriesValue 2 l || carriesValue 98 l)) = false := by
  simp [determine_repairability, carriesValue]

/-- C7 amended: every `major_damage` branch's rationale carries the
numeric `P_major` value, and the `minor_damage / image_improvement`
branch's rationale carries the numeric minor-severity value
`100 - P_major`; the `minor_damage / minor_maintenance` and
`no_damage / premium_ready` rationales consist of fixed literal lines
carrying no interpolated probability value. -/
theorem rationale_numeric_value_amended (confidence pMajor : ℚ) :
    ((determine_repairability "major_damage" confidence pMajor).2.1.any
      (carriesValue pMajor) = true) ∧
    ((determine_repairability "minor_damage" confidence pMajor).2.2 =
        EconomicTag.image_improvement →
      (determine_repairability "minor_damage" confidence pMajor).2.1.any
        (carriesValue (100 - pMajor)) = true) ∧
    ((determine_repairability "minor_damage" confidence pMajor).2.2 =
        EconomicTag.minor_maintenance →
      (determine_repairability "minor_damage" confidence pMajor).2.1.any
        carriesAnyValue = false) ∧
    ((determine_repairability "no_damage" confidence pMajor).2.1.any
      carriesAnyValue = false) := by
  refine ⟨?_, ?_, ?_, ?_⟩ <;>
  · simp only [determine_repairability]
    split_ifs <;> simp_all [carriesValue, carriesAnyValue]

/-- Witness for C7 amended at the spec's boundary scenario
`(minor_damage, confidence = 0.7, P_major = 55)`: the image-improvement
branch fires and its rationale carries the minor-severity value 45. -/
theorem rationale_numeric_value_amended_witness :
    (determine_repairability "minor_damage" (7/10) 55).2.2 =
      EconomicTag.image_improvement ∧
    (determine_repairability "minor_damage" (7/10) 55).2.1.any
      (carriesValue (100 - 55)) = true := by
  have he : (determine_repairability "minor_damage" (7/10) 55).2.2 =
      EconomicTag.image_improvement := by
    simp only [determine_repairability, MINOR_DAMAGE_TAXI_LIMIT]
    norm_num
    simp
  exact ⟨he, (rationale_numeric_value_amended (7/10) 55).2.1 he⟩

lemma chunkLead_iff (p l : List Char) : chunkLead p l = true ↔ p <+: l := by
  induction p generalizing l with
  | nil => simp [chunkLead]
  | cons a as ih =>
    cases l with
    | nil => simp [chunkLead]
    | cons b bs => simp [chunkLead, ih, List.cons_prefix_cons]

lemma chunkInside_iff (p l : List Char) : chunkInside p l = true ↔ p <:+: l := by
  induction l with
  | nil => simp [chunkInside, chunkLead_iff]
  | cons b bs ih => simp [chunkInside, chunkLead_iff, ih, List.infix_cons_iff]

/-- C8 (code bug in `get_human_comment`,
`analyze_car_image.py` lines 182-193): because the Python membership test
`"грязная" in dirt_status` also matches the label `"слегка грязная"`
(of which `"грязная"` is a substring) and is checked first, the labels
`dirty` and `slightly_dirty` both select the needs-wash comment template,
and the dedicated light-dust template of the `"слегка грязная"` branch is
unreachable for every input string. -/
theorem slightly_dirty_shares_needs_wash_template :
    dirtComment (labelString DirtLabel.slightly_dirty) =
      CommentBlock.needs_wash_block ∧
    dirtComment (labelString DirtLabel.dirty) =
      CommentBlock.needs_wash_block ∧
    ∀ s : String, (dirtComment s == CommentBlock.light_dust_block) = false := by
  refine ⟨by decide, by decide, ?_⟩
  intro s
  unfold dirtComment
  split_ifs with h1 h2 h3 h4
  · rfl
  · rfl
  · exfalso
    apply h2
    rw [pySubstr, chunkInside_iff] at h3 ⊢
    exact List.IsInfix.trans (by decide) h3
  · rfl
  · rfl
